import Mathlib

/-!
Shallow embedding of `src/efficientdet/keras/utils_keras.py`.

The file defines three Keras layers: `ActivationFn` (maps a string tag to a
stored framework activation function), `BatchNormAct` (selects and
parameterizes a batch-normalization collaborator, then applies an
`ActivationFn`), and `DropConnect` (stochastic depth; in the source its
`call` is nested inside `__init__`).

Modelling choices:
- Tensor values are rationals; an activation tensor is a `List ℚ`
  (activations are elementwise). Floating point is modelled by exact
  rational arithmetic.
- Python `Text`-or-`None` values are `Option String`; `None` interpolates
  into format strings as `"None"`.
- A constructor that can raise (`ValueError`) returns `Except String _`.
- The framework sigmoid is an abstract parameter `(sigmoid : ℚ → ℚ)`; the
  external normalization collaborators (`BatchNormalization`,
  `TpuBatchNormalization`, imported from `utils`) are abstract parameters
  `(bnSem tpuSem : BNParams → Bool → List ℚ → List ℚ)` taking the
  construction hyperparameters, the training flag and the input tensor.
-/

/-- Python string-or-`None` values, as in the source signatures
(`act_type: Union[Text, None]`, `name: Text = None`). -/
abbrev PyStr := Option String

/-- Python string interpolation of a `Text`-or-`None` value:
`'{}'.format(None)` yields the string `"None"`. -/
def formatTag : PyStr → String
  | some s => s
  | none => "None"

/-- The concrete framework function object stored into `self.act` by
`ActivationFn.__init__` (source lines 35-42); each constructor marks one of
the four assignments: `tf.nn.swish`, the lambda `x * tf.sigmoid(x)`,
`tf.nn.relu`, `tf.nn.relu6`. -/
inductive ActImpl where
  | nnSwish
  | sigmoidMul
  | nnRelu
  | nnRelu6
deriving DecidableEq

/-- Elementwise semantics of each stored framework function.
`nnSwish` is the fused framework op `tf.nn.swish`; modelled from the spec:
the framework swish computes `x * sigmoid(x)` (spec assumes it numerically
equivalent to the primitive composition). `sigmoidMul` is the source lambda
`lambda x: x * tf.sigmoid(x)` built from the primitive multiply and sigmoid
ops. `nnRelu` and `nnRelu6` are the framework rectifiers `max(x,0)` and
`min(max(x,0),6)`. The framework sigmoid is kept abstract. -/
def ActImpl.denote (sigmoid : ℚ → ℚ) : ActImpl → ℚ → ℚ
  | .nnSwish, x => x * sigmoid x
  | .sigmoidMul, x => x * sigmoid x
  | .nnRelu, x => max x 0
  | .nnRelu6, x => min (max x 0) 6

/-- State of a constructed `ActivationFn` layer: the stored tag, the stored
framework function, and the name given to the inner `Lambda` layer. -/
structure ActivationFn where
  act_type : PyStr
  act : ActImpl
  name : PyStr
deriving DecidableEq

/-- `ActivationFn.__init__` (source lines 29-46): dispatch on the string
tag; an unrecognized tag raises
`ValueError('Unsupported act_type {}'.format(act_type))`. -/
def ActivationFn.mk? (act_type : PyStr) (name : PyStr) : Except String ActivationFn :=
  if act_type = some "swish" then .ok ⟨act_type, .nnSwish, name⟩
  else if act_type = some "swish_native" then .ok ⟨act_type, .sigmoidMul, name⟩
  else if act_type = some "relu" then .ok ⟨act_type, .nnRelu, name⟩
  else if act_type = some "relu6" then .ok ⟨act_type, .nnRelu6, name⟩
  else .error ("Unsupported act_type " ++ formatTag act_type)

/-- `ActivationFn.call` (source lines 48-50): apply the stored function —
via the wrapping `Lambda` layer — elementwise to the input tensor. -/
def ActivationFn.call (sigmoid : ℚ → ℚ) (f : ActivationFn) (features : List ℚ) :
    List ℚ :=
  features.map (f.act.denote sigmoid)

/-- The gamma initializer chosen by `BatchNormAct.__init__` (source lines
79-82): `tf.zeros_initializer()` or `tf.ones_initializer()`. -/
inductive GammaInit where
  | zeros
  | ones
deriving DecidableEq

/-- The value the framework initializer puts in every entry of the gamma
parameter: zeros fills with 0, ones with 1. -/
def GammaInit.value : GammaInit → ℚ
  | .zeros => 0
  | .ones => 1

/-- Construction hyperparameters handed to the normalization collaborator
(source lines 90-104): axis, momentum, epsilon, center, scale, gamma
initializer and the name string. -/
structure BNParams where
  axis : ℕ
  momentum : ℚ
  epsilon : ℚ
  center : Bool
  scale : Bool
  gamma_init : GammaInit
  name : String
deriving DecidableEq

/-- The normalization collaborator selected by `BatchNormAct.__init__`:
either `TpuBatchNormalization` or `BatchNormalization`, each holding its
construction hyperparameters. -/
inductive BNLayer where
  | tpu (p : BNParams)
  | general (p : BNParams)
deriving DecidableEq

/-- Hyperparameters the selected collaborator was constructed with. -/
def BNLayer.params : BNLayer → BNParams
  | .tpu p => p
  | .general p => p

/-- Whether the accelerator-specific collaborator was selected. -/
def BNLayer.isTpu : BNLayer → Bool
  | .tpu _ => true
  | .general _ => false

/-- Invocation of the selected collaborator
(`self.layer.apply(inputs, training=...)`, source line 109): dispatch to
the abstract semantics of `TpuBatchNormalization` or `BatchNormalization`. -/
def BNLayer.applySem (bnSem tpuSem : BNParams → Bool → List ℚ → List ℚ) :
    BNLayer → Bool → List ℚ → List ℚ
  | .tpu p, training, x => tpuSem p training x
  | .general p, training, x => bnSem p training x

/-- State of a constructed `BatchNormAct` layer (source lines 76-106). The
source field `self.gamma_initializer` is `gamma_init` here. -/
structure BatchNormAct where
  act_type : PyStr
  training : Bool
  gamma_init : GammaInit
  axis : ℕ
  layer : BNLayer
  act : ActivationFn
deriving DecidableEq

/-- `BatchNormAct.__init__` (source lines 62-106): choose the gamma
initializer from `init_zero`, the axis from `data_format`, the collaborator
from `is_training_bn and use_tpu` (constructed with
`name=f'{parent_name}/{name}'`), then build
`ActivationFn(act_type, name=parent_name)`, which may raise. -/
def BatchNormAct.mk? (is_training_bn : Bool) (act_type : PyStr) (init_zero : Bool)
    (data_format : String) (momentum : ℚ) (epsilon : ℚ) (use_tpu : Bool)
    (name : PyStr) (parent_name : PyStr) : Except String BatchNormAct :=
  let g := if init_zero then GammaInit.zeros else GammaInit.ones
  let axis : ℕ := if data_format = "channels_first" then 1 else 3
  let qualified : String := formatTag parent_name ++ "/" ++ formatTag name
  let p : BNParams := ⟨axis, momentum, epsilon, true, true, g, qualified⟩
  let layer := if is_training_bn && use_tpu then BNLayer.tpu p else BNLayer.general p
  (ActivationFn.mk? act_type parent_name).map
    (fun act => ⟨act_type, is_training_bn, g, axis, layer, act⟩)

/-- `BatchNormAct.call` (source lines 108-111): normalize with the selected
collaborator and the stored training flag, then apply the held
`ActivationFn`. -/
def BatchNormAct.call (bnSem tpuSem : BNParams → Bool → List ℚ → List ℚ)
    (sigmoid : ℚ → ℚ) (b : BatchNormAct) (inputs : List ℚ) : List ℚ :=
  ActivationFn.call sigmoid b.act (b.layer.applySem bnSem tpuSem b.training inputs)

/-- State of a constructed `DropConnect` layer (source lines 114-117): only
the survival probability and the layer name are stored; the nested
`def call` inside `__init__` is never bound to the instance. -/
structure DropConnect where
  survival_prob : ℚ
  name : String
deriving DecidableEq

/-- Per-sample body of the function nested inside `DropConnect.__init__`
(source lines 119-128): one uniform draw `u` per batch element,
`binary_tensor = floor(survival_prob + u)`,
`output = inputs / survival_prob * binary_tensor`. -/
def dropConnectSample (survival_prob : ℚ) (u : ℚ) (x : ℚ) : ℚ :=
  let random_tensor := survival_prob + u
  let binary_tensor : ℚ := (Int.floor random_tensor : ℤ)
  x / survival_prob * binary_tensor

/-- Batch form of the nested function: the mask from the draw `us[i]` is
broadcast across all non-batch dimensions of sample `xs[i]` (here each
sample is one value). -/
def dropConnectNestedCall (survival_prob : ℚ) (us : List ℚ) (xs : List ℚ) :
    List ℚ :=
  List.zipWith (dropConnectSample survival_prob) us xs

/-- Modelled from the spec: `DropConnect` defines no `call` of its own (the
`def call` in the source is nested inside `__init__` and never installed),
so invoking the layer falls back to the inherited base-layer behavior,
which returns the input unchanged ("an inherited identity/no-op behavior",
spec §9). -/
def DropConnect.call (_l : DropConnect) (inputs : List ℚ) : List ℚ := inputs


/-- C1: evaluating the code at survival probability `1/2`, batch `[1]` and
uniform draw `0`: the constructed `DropConnect` layer's call returns the
input unchanged (the masking logic in the source is nested inside
`__init__` and never installed, so the inherited base-layer behavior runs),
while the drop-connect formula written in the source would zero the sample
(`(1 / (1/2)) * floor(1/2 + 0) = 0`). The apply operation therefore never
executes the algorithm the claim describes. -/
theorem dropConnect_call_skips_masking :
    DropConnect.call ⟨1/2, "drop_connect"⟩ [1] = [1] ∧
    dropConnectNestedCall (1/2) [0] [1] = [0] ∧
    ([1] : List ℚ) ≠ [0] := by
  refine ⟨rfl, ?_, by norm_num⟩
  simp [dropConnectNestedCall, dropConnectSample]
  norm_num

/-- C2: the spec's identity-swish kind (`x * sigmoid(x)` computed from
primitive ops, the portable fallback) is realized by the source tag
`'swish_native'`, whose stored implementation is the primitive composition
`lambda x: x * tf.sigmoid(x)`; the spec's native-swish kind (the
framework's fused swish) is realized by the source tag `'swish'`, whose
stored implementation is the fused framework op `tf.nn.swish`. The
tag-to-function mapping thus pairs the primitive-composition kind with the
primitive composition and the fused kind with the fused op. (The source
string names are swapped relative to their semantics: the tag literally
named `'swish_native'` is the portable fallback, and plain `'swish'` is the
framework op.) -/
theorem actFn_swish_tag_mapping (name : PyStr) (sigmoid : ℚ → ℚ) (x : ℚ) :
    (ActivationFn.mk? (some "swish_native") name).map ActivationFn.act =
      .ok ActImpl.sigmoidMul ∧
    ActImpl.sigmoidMul.denote sigmoid x = x * sigmoid x ∧
    (ActivationFn.mk? (some "swish") name).map ActivationFn.act =
      .ok ActImpl.nnSwish := ⟨rfl, rfl, rfl⟩

/-- C3: for every tag outside the four recognized ones, construction
returns the `ValueError` message naming the offending tag and produces no
layer object; for every recognized tag construction succeeds and the
resulting apply operation is the total elementwise map over the input
tensor — it never fails. -/
theorem actFn_construction_validation (act_type : PyStr) (name : PyStr) :
    (act_type ∉ [some "swish", some "swish_native", some "relu", some "relu6"] →
      ActivationFn.mk? act_type name =
        .error ("Unsupported act_type " ++ formatTag act_type)) ∧
    (act_type ∈ [some "swish", some "swish_native", some "relu", some "relu6"] →
      ∃ f : ActivationFn, ActivationFn.mk? act_type name = .ok f ∧
        ∀ (sigmoid : ℚ → ℚ) (xs : List ℚ),
          f.call sigmoid xs = xs.map (f.act.denote sigmoid)) := by
  constructor
  · intro h
    simp only [List.mem_cons, List.not_mem_nil, or_false, not_or] at h
    obtain ⟨h1, h2, h3, h4⟩ := h
    simp [ActivationFn.mk?, h1, h2, h3, h4]
  · intro h
    simp only [List.mem_cons, List.not_mem_nil, or_false] at h
    rcases h with h | h | h | h <;> subst h <;>
      exact ⟨_, rfl, fun _ _ => rfl⟩

/-- Witness for C3 at the concrete tags `'gelu'` (rejected, message names
the tag) and `'relu'` (accepted). -/
theorem actFn_construction_validation_witness :
    ActivationFn.mk? (some "gelu") (some "activation_fn") =
      .error ("Unsupported act_type " ++ formatTag (some "gelu")) ∧
    ∃ f : ActivationFn,
      ActivationFn.mk? (some "relu") (some "activation_fn") = .ok f ∧
      ∀ (sigmoid : ℚ → ℚ) (xs : List ℚ),
        f.call sigmoid xs = xs.map (f.act.denote sigmoid) :=
  ⟨(actFn_construction_validation (some "gelu") (some "activation_fn")).1 (by simp),
   (actFn_construction_validation (some "relu") (some "activation_fn")).2 (by simp)⟩

/-- C4 counterexample: constructing `BatchNormAct` with layer name `'n'`
and parent name `'p'`, the normalization collaborator receives the
qualified name `"p/n"` but the internally held `ActivationFn` is built with
name `'p'` (the parent name) only — not the qualified name, so the claim as
stated fails. -/
theorem batchNormAct_act_name_not_qualified :
    (BatchNormAct.mk? true (some "relu") false "channels_last" (99/100)
        (1/1000) false (some "n") (some "p")).map
      (fun b => b.layer.params.name) = .ok "p/n" ∧
    (BatchNormAct.mk? true (some "relu") false "channels_last" (99/100)
        (1/1000) false (some "n") (some "p")).map
      (fun b => b.act.name) = .ok (some "p") ∧
    (some "p" : PyStr) ≠ some "p/n" := ⟨rfl, rfl, by decide⟩

/-- C4 amended: for every input, `BatchNormAct.call` first normalizes the
input with the collaborator selected at construction together with the
stored training-mode flag, then passes the result through the internally
held `ActivationFn`, which was built from the same activation-kind tag and
the parent name (the qualified `parent/name` string goes only to the
normalization collaborator). -/
theorem batchNormAct_call_normalize_then_activate
    (is_training_bn : Bool) (act_type : PyStr) (init_zero : Bool)
    (data_format : String) (momentum epsilon : ℚ) (use_tpu : Bool)
    (name parent_name : PyStr) (b : BatchNormAct)
    (h : BatchNormAct.mk? is_training_bn act_type init_zero data_format
        momentum epsilon use_tpu name parent_name = .ok b) :
    b.training = is_training_bn ∧
    ActivationFn.mk? act_type parent_name = .ok b.act ∧
    ∀ (bnSem tpuSem : BNParams → Bool → List ℚ → List ℚ) (sigmoid : ℚ → ℚ)
      (inputs : List ℚ),
      b.call bnSem tpuSem sigmoid inputs =
        ActivationFn.call sigmoid b.act
          (b.layer.applySem bnSem tpuSem b.training inputs) := by
  cases hA : ActivationFn.mk? act_type parent_name with
  | error e =>
    rw [BatchNormAct.mk?, hA] at h
    exact absurd h (by simp [Except.map])
  | ok a =>
    rw [BatchNormAct.mk?, hA] at h
    simp only [Except.map, Except.ok.injEq] at h
    subst h
    exact ⟨rfl, rfl, fun _ _ _ _ => rfl⟩

/-- Witness for C4's amended theorem at a concrete construction. -/
theorem batchNormAct_call_normalize_then_activate_witness :
    (⟨some "relu", true, GammaInit.ones, 3,
        BNLayer.general ⟨3, 99/100, 1/1000, true, true, GammaInit.ones, "p/n"⟩,
        ⟨some "relu", ActImpl.nnRelu, some "p"⟩⟩ : BatchNormAct).training = true ∧
    ActivationFn.mk? (some "relu") (some "p") =
      .ok (⟨some "relu", true, GammaInit.ones, 3,
        BNLayer.general ⟨3, 99/100, 1/1000, true, true, GammaInit.ones, "p/n"⟩,
        ⟨some "relu", ActImpl.nnRelu, some "p"⟩⟩ : BatchNormAct).act := by
  have h := batchNormAct_call_normalize_then_activate true (some "relu") false
    "channels_last" (99/100) (1/1000) false (some "n") (some "p")
    ⟨some "relu", true, GammaInit.ones, 3,
      BNLayer.general ⟨3, 99/100, 1/1000, true, true, GammaInit.ones, "p/n"⟩,
      ⟨some "relu", ActImpl.nnRelu, some "p"⟩⟩ rfl
  exact ⟨h.1, h.2.1⟩

/-- C5: the accelerator-specific collaborator (`TpuBatchNormalization`) is
selected iff both `is_training_bn` and `use_tpu` are true, the
general-purpose collaborator (`BatchNormalization`) otherwise; and
whichever is chosen is constructed with the hyperparameters: the axis from
`data_format`, `momentum`, `epsilon`, `center=true`, `scale=true`, the
gamma initializer from `init_zero`, and the qualified name
`parent_name/name`. -/
theorem batchNormAct_layer_selection
    (is_training_bn : Bool) (act_type : PyStr) (init_zero : Bool)
    (data_format : String) (momentum epsilon : ℚ) (use_tpu : Bool)
    (name parent_name : PyStr) (b : BatchNormAct)
    (h : BatchNormAct.mk? is_training_bn act_type init_zero data_format
        momentum epsilon use_tpu name parent_name = .ok b) :
    (b.layer.isTpu = true ↔ is_training_bn = true ∧ use_tpu = true) ∧
    b.layer.params =
      ⟨(if data_format = "channels_first" then 1 else 3), momentum, epsilon,
        true, true, (if init_zero then GammaInit.zeros else GammaInit.ones),
        formatTag parent_name ++ "/" ++ formatTag name⟩ := by
  cases hA : ActivationFn.mk? act_type parent_name with
  | error e =>
    rw [BatchNormAct.mk?, hA] at h
    exact absurd h (by simp [Except.map])
  | ok a =>
    rw [BatchNormAct.mk?, hA] at h
    simp only [Except.map, Except.ok.injEq] at h
    subst h
    cases is_training_bn <;> cases use_tpu <;>
      simp [BNLayer.isTpu, BNLayer.params]

/-- Witness for C5 at a concrete construction with both flags set (the
accelerator path). -/
theorem batchNormAct_layer_selection_witness :
    ((⟨some "swish", true, GammaInit.zeros, 1,
        BNLayer.tpu ⟨1, 9/10, 1/100, true, true, GammaInit.zeros, "blk/bn"⟩,
        ⟨some "swish", ActImpl.nnSwish, some "blk"⟩⟩ : BatchNormAct).layer.isTpu
        = true ↔ true = true ∧ true = true) ∧
    (⟨some "swish", true, GammaInit.zeros, 1,
        BNLayer.tpu ⟨1, 9/10, 1/100, true, true, GammaInit.zeros, "blk/bn"⟩,
        ⟨some "swish", ActImpl.nnSwish, some "blk"⟩⟩ : BatchNormAct).layer.params =
      ⟨(if "channels_first" = "channels_first" then 1 else 3), 9/10, 1/100,
        true, true, (if true then GammaInit.zeros else GammaInit.ones),
        formatTag (some "blk") ++ "/" ++ formatTag (some "bn")⟩ :=
  batchNormAct_layer_selection true (some "swish") true "channels_first"
    (9/10) (1/100) true (some "bn") (some "blk")
    ⟨some "swish", true, GammaInit.zeros, 1,
      BNLayer.tpu ⟨1, 9/10, 1/100, true, true, GammaInit.zeros, "blk/bn"⟩,
      ⟨some "swish", ActImpl.nnSwish, some "blk"⟩⟩ rfl

/-- C6: the gamma (scale) initializer of a constructed `BatchNormAct` is
the all-zeros initializer iff `init_zero` is true and the all-ones
initializer otherwise; the same initializer is handed to the normalization
collaborator, and it fills every gamma entry with 0 resp. 1. -/
theorem batchNormAct_gamma_init
    (is_training_bn : Bool) (act_type : PyStr) (init_zero : Bool)
    (data_format : String) (momentum epsilon : ℚ) (use_tpu : Bool)
    (name parent_name : PyStr) (b : BatchNormAct)
    (h : BatchNormAct.mk? is_training_bn act_type init_zero data_format
        momentum epsilon use_tpu name parent_name = .ok b) :
    b.gamma_init = (if init_zero then GammaInit.zeros else GammaInit.ones) ∧
    b.layer.params.gamma_init = b.gamma_init ∧
    b.gamma_init.value = (if init_zero then (0 : ℚ) else 1) := by
  cases hA : ActivationFn.mk? act_type parent_name with
  | error e =>
    rw [BatchNormAct.mk?, hA] at h
    exact absurd h (by simp [Except.map])
  | ok a =>
    rw [BatchNormAct.mk?, hA] at h
    simp only [Except.map, Except.ok.injEq] at h
    subst h
    cases is_training_bn <;> cases use_tpu <;> cases init_zero <;>
      simp [BNLayer.params, GammaInit.value]

/-- Witness for C6 at a concrete construction with `init_zero = true`. -/
theorem batchNormAct_gamma_init_witness :
    (⟨some "relu6", false, GammaInit.zeros, 3,
        BNLayer.general ⟨3, 99/100, 1/1000, true, true, GammaInit.zeros,
          "None/None"⟩,
        ⟨some "relu6", ActImpl.nnRelu6, none⟩⟩ : BatchNormAct).gamma_init =
      (if true then GammaInit.zeros else GammaInit.ones) ∧
    (⟨some "relu6", false, GammaInit.zeros, 3,
        BNLayer.general ⟨3, 99/100, 1/1000, true, true, GammaInit.zeros,
          "None/None"⟩,
        ⟨some "relu6", ActImpl.nnRelu6, none⟩⟩ : BatchNormAct).layer.params.gamma_init =
      (⟨some "relu6", false, GammaInit.zeros, 3,
        BNLayer.general ⟨3, 99/100, 1/1000, true, true, GammaInit.zeros,
          "None/None"⟩,
        ⟨some "relu6", ActImpl.nnRelu6, none⟩⟩ : BatchNormAct).gamma_init ∧
    (⟨some "relu6", false, GammaInit.zeros, 3,
        BNLayer.general ⟨3, 99/100, 1/1000, true, true, GammaInit.zeros,
          "None/None"⟩,
        ⟨some "relu6", ActImpl.nnRelu6, none⟩⟩ : BatchNormAct).gamma_init.value =
      (if true then (0 : ℚ) else 1) :=
  batchNormAct_gamma_init false (some "relu6") true "channels_last" (99/100)
    (1/1000) false none none
    ⟨some "relu6", false, GammaInit.zeros, 3,
      BNLayer.general ⟨3, 99/100, 1/1000, true, true, GammaInit.zeros,
        "None/None"⟩,
      ⟨some "relu6", ActImpl.nnRelu6, none⟩⟩ rfl

/-- C7: the activation constructed for the tag `'relu6'` computes
`min(max(x,0),6)` for every input value, and applied elementwise to the
tensor `[-2, 3, 9]` it returns `[0, 3, 6]`. -/
theorem actFn_relu6_semantics (name : PyStr) (sigmoid : ℚ → ℚ) (x : ℚ) :
    (ActivationFn.mk? (some "relu6") name).map
      (fun f => f.call sigmoid [x]) = .ok [min (max x 0) 6] ∧
    (ActivationFn.mk? (some "relu6") name).map
      (fun f => f.call sigmoid [-2, 3, 9]) = .ok [0, 3, 6] := by
  constructor
  · rfl
  · have h63 : min (max (3:ℚ) 0) 6 = 3 := by norm_num
    have h60 : min (max (-2:ℚ) 0) 6 = 0 := by norm_num
    have h66 : min (max (9:ℚ) 0) 6 = 6 := by norm_num
    show Except.map _ _ = _
    rw [show ActivationFn.mk? (some "relu6") name =
        .ok ⟨some "relu6", .nnRelu6, name⟩ from rfl]
    simp only [Except.map, ActivationFn.call, List.map, ActImpl.denote]
    rw [h60, h63, h66]

/-- C8: for every input tensor, the activation constructed for the source
tag `'swish'` (the framework's fused swish, modelled from the spec as
`x * sigmoid(x)`) and the one constructed for `'swish_native'` (the
primitive composition `x * sigmoid(x)`) produce equal outputs. -/
theorem actFn_swish_variants_equal (name : PyStr) (sigmoid : ℚ → ℚ)
    (xs : List ℚ) :
    (ActivationFn.mk? (some "swish") name).map (fun f => f.call sigmoid xs) =
      (ActivationFn.mk? (some "swish_native") name).map
        (fun f => f.call sigmoid xs) := rfl

/-- C9: constructing `BatchNormAct` with `act_type = None` always fails at
construction time with the unrecognized-tag `ValueError` naming `None`,
because the block unconditionally builds an `ActivationFn` from the tag and
`ActivationFn` rejects every tag outside the four recognized kinds; there
is no no-activation mode. -/
theorem batchNormAct_none_act_type_raises
    (is_training_bn : Bool) (init_zero : Bool) (data_format : String)
    (momentum epsilon : ℚ) (use_tpu : Bool) (name parent_name : PyStr) :
    BatchNormAct.mk? is_training_bn none init_zero data_format momentum
      epsilon use_tpu name parent_name = .error "Unsupported act_type None" ∧
    ActivationFn.mk? none parent_name = .error "Unsupported act_type None" :=
  ⟨rfl, rfl⟩

/-- C10: for every `data_format` other than exactly `'channels_first'`,
construction of `BatchNormAct` behaves exactly as with `'channels_last'`:
the channel axis is silently set to 3, and construction never fails on
account of `data_format` (the only failure source is the activation tag). -/
theorem batchNormAct_data_format_not_validated
    (data_format : String) (hdf : data_format ≠ "channels_first")
    (is_training_bn : Bool) (act_type : PyStr) (init_zero : Bool)
    (momentum epsilon : ℚ) (use_tpu : Bool) (name parent_name : PyStr) :
    BatchNormAct.mk? is_training_bn act_type init_zero data_format momentum
        epsilon use_tpu name parent_name =
      BatchNormAct.mk? is_training_bn act_type init_zero "channels_last"
        momentum epsilon use_tpu name parent_name ∧
    ∀ b : BatchNormAct,
      BatchNormAct.mk? is_training_bn act_type init_zero data_format momentum
        epsilon use_tpu name parent_name = .ok b → b.axis = 3 := by
  constructor
  · simp [BatchNormAct.mk?, hdf]
  · intro b hb
    cases hA : ActivationFn.mk? act_type parent_name with
    | error e =>
      rw [BatchNormAct.mk?, hA] at hb
      exact absurd hb (by simp [Except.map])
    | ok a =>
      rw [BatchNormAct.mk?, hA] at hb
      simp only [Except.map, Except.ok.injEq] at hb
      rw [← hb]
      simp [hdf]

/-- Witness for C10 at the concrete misspelled value `"Channels_First"`. -/
theorem batchNormAct_data_format_not_validated_witness :
    (BatchNormAct.mk? true (some "relu") false "Channels_First" (99/100)
        (1/1000) false none none =
      BatchNormAct.mk? true (some "relu") false "channels_last" (99/100)
        (1/1000) false none none) ∧
    (⟨some "relu", true, GammaInit.ones, 3,
        BNLayer.general ⟨3, 99/100, 1/1000, true, true, GammaInit.ones,
          "None/None"⟩,
        ⟨some "relu", ActImpl.nnRelu, none⟩⟩ : BatchNormAct).axis = 3 :=
  ⟨(batchNormAct_data_format_not_validated "Channels_First" (by decide) true
      (some "relu") false (99/100) (1/1000) false none none).1,
   (batchNormAct_data_format_not_validated "Channels_First" (by decide) true
      (some "relu") false (99/100) (1/1000) false none none).2
     ⟨some "relu", true, GammaInit.ones, 3,
       BNLayer.general ⟨3, 99/100, 1/1000, true, true, GammaInit.ones,
         "None/None"⟩,
       ⟨some "relu", ActImpl.nnRelu, none⟩⟩ rfl⟩
